import Mathlib

set_option linter.unusedVariables false

/-!
Verification of the command-execution bridge of an InDesign MCP server
(`src/index.js`). The JavaScript source is shallowly embedded below:

* the filesystem touched by the bridge is an association list of
  path ↦ contents, with `fs.writeFileSync` / `fs.existsSync` /
  `fs.unlinkSync` modelled as pure operations on it;
* the outer `osascript` invocation (`execSync`) is modelled by an
  `ExecResult` parameter: either the captured stdout or the message of the
  error thrown by `execSync` (spawn failure, non-zero exit, or timeout);
* each JavaScript function of the bridge (`executeAppleScript`,
  `executeInDesignScript`, `formatResponse`, the `CallToolRequestSchema`
  dispatcher, and the claim-relevant tool handlers) becomes a Lean
  definition that follows the source line by line, with the strings the
  source builds by template interpolation reproduced exactly;
* the ExtendScript payloads that the claims reason about
  (`deletePage`, `createColorSwatch`) additionally get a semantic
  function: the meaning of the rendered script over a small model of the
  InDesign document state, translated branch by branch from the payload
  template.

Only the operations the claims touch are embedded; the remaining catalog
handlers are structurally identical per-operation templates that no claim
mentions.
-/

namespace InDesignMCP

/-! ## Filesystem model -/

/-- A filesystem: association list of path ↦ file contents. -/
abbrev FS := List (String × String)

/-- `fs.writeFileSync(p, c)`: create or overwrite the file at `p`. -/
def fsWrite (p c : String) (fs : FS) : FS :=
  (p, c) :: fs.filter (fun e => e.1 ≠ p)

/-- `fs.existsSync(p)`. -/
def fsExists (p : String) (fs : FS) : Bool :=
  fs.any (fun e => e.1 = p)

/-- `fs.unlinkSync(p)` (total here; the source only calls it guarded by
`fs.existsSync`). -/
def fsUnlink (p : String) (fs : FS) : FS :=
  fs.filter (fun e => e.1 ≠ p)

/-- Contents of the file at `p`, if present. -/
def fsLookup (p : String) (fs : FS) : Option String :=
  (fs.find? (fun e => e.1 = p)).map (fun e => e.2)

/-! ## The outer automation call (`executeAppleScript`, src/index.js:615-625) -/

/-- Outcome of the `execSync("osascript -e ...", \x7bencoding, timeout\x7d)`
call: either the captured stdout, or the message of the error `execSync`
throws (spawn failure, non-zero exit status, or exceeding the timeout). -/
inductive ExecResult where
  | ok (stdout : String)
  | err (diagnostic : String)
deriving DecidableEq

/-- The fixed `timeout` option passed to `execSync` (src/index.js:619),
in milliseconds. -/
def osascriptTimeoutMs : Nat := 30000

/-- The characters `String.prototype.trim` strips (the ASCII ones; the
transport never produces the exotic unicode whitespace). -/
def jsWhitespace (c : Char) : Bool :=
  c = ' ' ∨ c = '\t' ∨ c = '\n' ∨ c = '\r' ∨
    c = Char.ofNat 11 ∨ c = Char.ofNat 12

/-- JavaScript `s.trim()`: whitespace stripped from both ends, nothing
else touched. -/
def jsTrim (s : String) : String :=
  String.mk
    (((s.data.dropWhile jsWhitespace).reverse.dropWhile jsWhitespace).reverse)

/-- `executeAppleScript` (src/index.js:615-625): on success return the
trimmed stdout; on any thrown condition re-throw
`Error("AppleScript execution failed: " + message)`.  `Except.error` is a
thrown JavaScript exception, carrying the message. -/
def executeAppleScript : ExecResult → Except String String
  | .ok stdout => .ok (jsTrim stdout)
  | .err diagnostic => .error ("AppleScript execution failed: " ++ diagnostic)

/-! ## The scoped transport (`executeInDesignScript`, src/index.js:627-656) -/

/-- `path.join(__dirname, "temp_script.jsx")` (src/index.js:628): a fixed
path, computed from the module directory, independent of the request. -/
def tempScriptPath : String := "src/temp_script.jsx"

/-- Text of the wrapper template before `$\x7bscript\x7d`
(src/index.js:631-633). -/
def guardOpen : String := "\n      try \x7b\n        "

/-- Text of the wrapper template after `$\x7bscript\x7d`
(src/index.js:633-637). -/
def guardClose : String :=
  "\n      \x7d catch (error) \x7b\n        \"ERROR: \" + error.message + \" (Line: \" + (error.line || \"unknown\") + \")\";\n      \x7d\n    "

/-- The engine-level guard (src/index.js:631-637): the payload is spliced,
unmodified, between the fixed prefix and suffix. -/
def wrapScript (script : String) : String :=
  guardOpen ++ script ++ guardClose

/-- Observable trace of one `executeInDesignScript` invocation. -/
structure RunTrace where
  writtenPath : String
  writtenContents : String
  result : Except String String
  fsAfter : FS

/-- `executeInDesignScript` (src/index.js:627-656): write the wrapped
payload to `tempScriptPath`, issue the outer automation call, and in the
`finally` block delete the temporary file if it exists — on the normal
return path and on the throwing path alike (the two paths perform the
same cleanup, so the model computes it once). -/
def executeInDesignScriptTrace (script : String) (outcome : ExecResult)
    (fs : FS) : RunTrace :=
  let tempScript := tempScriptPath
  let wrappedScript := wrapScript script
  let fs1 := fsWrite tempScript wrappedScript fs
  let result := executeAppleScript outcome
  let fs2 := if fsExists tempScript fs1 then fsUnlink tempScript fs1 else fs1
  { writtenPath := tempScript
    writtenContents := wrappedScript
    result := result
    fsAfter := fs2 }

/-! ## Cleanup lemmas -/

theorem fsLookup_fsUnlink (p : String) (fs : FS) :
    fsLookup p (fsUnlink p fs) = none := by
  induction fs with
  | nil => rfl
  | cons e rest ih =>
      by_cases h : e.1 = p
      · simp [fsUnlink, fsLookup, h]
      · simp [fsUnlink, fsLookup, h]

theorem fsExists_fsWrite (p c : String) (fs : FS) :
    fsExists p (fsWrite p c fs) = true := by
  simp [fsExists, fsWrite]

/-- After any `executeInDesignScript` invocation, the temporary script file
is gone, whatever the filesystem held before and however the outer call
ended. -/
theorem fsAfter_no_temp (script : String) (outcome : ExecResult) (fs : FS) :
    fsLookup tempScriptPath
      (executeInDesignScriptTrace script outcome fs).fsAfter = none := by
  show fsLookup tempScriptPath
      (if fsExists tempScriptPath (fsWrite tempScriptPath (wrapScript script) fs)
       then fsUnlink tempScriptPath (fsWrite tempScriptPath (wrapScript script) fs)
       else fsWrite tempScriptPath (wrapScript script) fs) = none
  rw [fsExists_fsWrite]
  simp only [if_pos]
  exact fsLookup_fsUnlink _ _

/-! ## JavaScript values and tool arguments -/

/-- The JavaScript values that reach the modelled handlers through the
`arguments` object of a tool call. -/
inductive JsValue where
  | str (s : String)
  | num (n : Int)
  | jsBool (b : Bool)
  | jsUndefined
deriving DecidableEq

/-- Template-literal interpolation `$\x7bv\x7d` of a JavaScript value. -/
def jsToString : JsValue → String
  | .str s => s
  | .num n => toString n
  | .jsBool b => if b then "true" else "false"
  | .jsUndefined => "undefined"

/-- The `arguments` object of one tool call. -/
abbrev Args := List (String × JsValue)

/-- JavaScript property access `args.k` / destructuring
`const \x7b k \x7d = args`: `undefined` when the property is absent. -/
def getArg (args : Args) (k : String) : JsValue :=
  ((args.find? (fun e => e.1 = k)).map (fun e => e.2)).getD .jsUndefined

/-! ## Rendered payload of the page-deletion operation
(`deletePage`, src/index.js:906-932) -/

/-- The `deletePage` script template (src/index.js:909-928) with the
`pageIndex` interpolations substituted; text reproduced exactly. -/
def deletePageScript (p : String) : String :=
  "\n      if (app.documents.length === 0) \x7b\n        \"No document open\";\n      \x7d else \x7b\n        var doc = app.activeDocument;\n        try \x7b\n          if (" ++ p ++ " >= doc.pages.length || " ++ p ++
  " < 0) \x7b\n            \"Invalid page index: " ++ p ++
  ". Document has \" + doc.pages.length + \" pages.\";\n          \x7d else if (doc.pages.length === 1) \x7b\n            \"Cannot delete the last page in the document.\";\n          \x7d else \x7b\n            var pageToDelete = doc.pages[" ++ p ++
  "];\n            pageToDelete.remove();\n            \"Page \" + (" ++ p ++
  " + 1) + \" deleted. Remaining pages: \" + doc.pages.length;\n          \x7d\n        \x7d catch (e) \x7b\n          \"Error deleting page: \" + e.message;\n        \x7d\n      \x7d\n    "

/-! ## Caller-facing responses and the dispatcher
(src/index.js:544-612, 658-667) -/

/-- `ErrorCode` values of the MCP SDK used by the source. -/
inductive ErrCode where
  | methodNotFound
  | internalError
deriving DecidableEq

/-- The JSON-RPC numeric codes behind the two `ErrorCode` members. -/
def errCodeNum : ErrCode → Int
  | .methodNotFound => -32601
  | .internalError => -32603

/-- `new McpError(code, msg).message` as produced by the MCP SDK:
`"MCP error <code>: <msg>"`. -/
def mcpErrMessage (c : ErrCode) (msg : String) : String :=
  "MCP error " ++ toString (errCodeNum c) ++ ": " ++ msg

/-- What the caller receives: either the text of the single
`\x7btype, text\x7d` content block, or a thrown `McpError`. -/
inductive ToolResponse where
  | success (text : String)
  | mcpError (code : ErrCode) (message : String)
deriving DecidableEq

/-- `formatResponse` (src/index.js:658-667): the text of the content block is
`` `$\x7boperation\x7d: $\x7bresult\x7d` ``. -/
def formatResponse (result : String) (operation : String) : String :=
  operation ++ ": " ++ result

/-- Result of one tool handler: the value it returns or the exception it
throws (as the `.message` field of the thrown error), the filesystem afterwards, and
the `executeInDesignScript` invocations it performed. -/
structure HandlerOut where
  outcome : Except String String
  fsAfter : FS
  transports : List RunTrace

/-- Handler `deletePage` (src/index.js:906-932): render the script with
`pageIndex` interpolated (missing parameter ⇒ `undefined` — the source
performs no required-parameter check), run it through the transport, and
format the result. A thrown transport error propagates. -/
def deletePageHandler (args : Args) (outcome : ExecResult) (fs : FS) :
    HandlerOut :=
  let pageIndex := getArg args "pageIndex"
  let t := executeInDesignScriptTrace (deletePageScript (jsToString pageIndex))
    outcome fs
  { outcome := t.result.map (fun r => formatResponse r "Delete Page")
    fsAfter := t.fsAfter
    transports := [t] }

/-- Handler `executeInDesignCode` (src/index.js:1794-1797), reached as
`this.executeInDesignCode(args.code)` (src/index.js:599): the raw body is
handed to `executeInDesignScript` unmodified. -/
def executeInDesignCodeHandler (code : JsValue) (outcome : ExecResult)
    (fs : FS) : HandlerOut :=
  let t := executeInDesignScriptTrace (jsToString code) outcome fs
  { outcome := t.result.map (fun r => formatResponse r "Execute Custom Code")
    fsAfter := t.fsAfter
    transports := [t] }

/-- Observable trace of one `CallToolRequestSchema` dispatch. -/
structure CallTrace where
  response : ToolResponse
  fsAfter : FS
  transports : List RunTrace

/-- The `CallToolRequestSchema` dispatcher (src/index.js:544-611): a switch
on the tool name inside a try/catch. The `default` branch throws
`McpError(ErrorCode.MethodNotFound, ...)`; the catch converts EVERY thrown
error — the `MethodNotFound` one included — into
`McpError(ErrorCode.InternalError, "Error executing tool <name>: <message>")`.
Only the handlers the claims touch are modelled; the other ~33 catalog
cases are structurally identical calls to per-operation handlers. -/
def handleCallTool (name : String) (args : Args) (outcome : ExecResult)
    (fs : FS) : CallTrace :=
  let inner : HandlerOut :=
    match name with
    | "delete_page" => deletePageHandler args outcome fs
    | "execute_indesign_code" =>
        executeInDesignCodeHandler (getArg args "code") outcome fs
    | _ =>
        { outcome := .error
            (mcpErrMessage .methodNotFound ("Unknown tool: " ++ name))
          fsAfter := fs
          transports := [] }
  match inner with
  | { outcome := .ok text, fsAfter := fs', transports := ts } =>
      { response := .success text, fsAfter := fs', transports := ts }
  | { outcome := .error emsg, fsAfter := fs', transports := ts } =>
      { response := .mcpError .internalError
          ("Error executing tool " ++ name ++ ": " ++ emsg)
        fsAfter := fs'
        transports := ts }

/-! ## Meaning of the page-deletion payload over a document model
(`deletePage` template body, src/index.js:909-928) -/

/-- The InDesign state the page-deletion payload reads and writes:
`app.documents.length` and `doc.pages.length` of the active document. -/
structure InDesignState where
  numDocuments : Nat
  pages : Nat
deriving DecidableEq

/-- Branch-by-branch meaning of the rendered `deletePageScript` when the
interpolated `pageIndex` is the numeral of an integer (src/index.js:909-928):
no document ⇒ fixed text; index out of range (checked first) ⇒ invalid-index
text; exactly one page ⇒ fixed refusal text, no mutation; otherwise the page
is removed and the remaining count reported (`doc.pages.length` is read after
`remove()`). The final expression of the taken branch is the value of the
script. -/
def deletePageScriptSem (pageIndex : Int) (st : InDesignState) :
    String × InDesignState :=
  if st.numDocuments = 0 then
    ("No document open", st)
  else if pageIndex ≥ (st.pages : Int) ∨ pageIndex < 0 then
    ("Invalid page index: " ++ toString pageIndex ++ ". Document has " ++
      toString st.pages ++ " pages.", st)
  else if st.pages = 1 then
    ("Cannot delete the last page in the document.", st)
  else
    ("Page " ++ toString (pageIndex + 1) ++ " deleted. Remaining pages: " ++
      toString (st.pages - 1), { st with pages := st.pages - 1 })

/-! ## Meaning of the colour-swatch payload
(`createColorSwatch`, src/index.js:1502-1536) -/

/-- The state the colour-swatch payload touches: document count and the
names of the colours of the active document. -/
structure ColorDocState where
  numDocuments : Nat
  colors : List String
deriving DecidableEq

/-- `colorValues.join(", ")` for the interpolations at
src/index.js:1517, 1524, 1527. -/
def joinComma : List Int → String
  | [] => ""
  | [x] => toString x
  | x :: y :: xs => toString x ++ ", " ++ joinComma (y :: xs)

/-- The `enum` of the `colorModel` property in the `create_color_swatch`
input schema (src/index.js:332). -/
def createColorSwatchColorModels : List String := ["CMYK", "RGB", "LAB"]

/-- Branch-by-branch meaning of the rendered `createColorSwatch` payload
(src/index.js:1505-1532) on its non-throwing path: `doc.colors.add()` runs
only inside the two branches guarded by `colorModel === "CMYK"` and
`colorModel === "RGB"`; any other model value adds nothing. The success
message after the if/else chain is emitted unconditionally. The colour
model/space attributes set on the new colour are not tracked here — only
whether a colour object is created, which is what the claim is about. -/
def createColorSwatchScriptSem (name colorModel : String)
    (colorValues : List Int) (spotColor : Bool) (st : ColorDocState) :
    String × ColorDocState :=
  if st.numDocuments = 0 then
    ("No document open", st)
  else
    let st' :=
      if colorModel = "CMYK" then { st with colors := st.colors ++ [name] }
      else if colorModel = "RGB" then { st with colors := st.colors ++ [name] }
      else st
    ("Color swatch \x27" ++ name ++ "\x27 created (" ++ colorModel ++ ": " ++
      joinComma colorValues ++ ")", st')

/-! ## The content escaping of `createTextFrame` (src/index.js:1025) -/

/-- `String.prototype.replace` with a global single-character pattern:
every occurrence of `c` becomes `rep`. -/
def replaceChar (c : Char) (rep : List Char) : List Char → List Char
  | [] => []
  | x :: xs => (if x = c then rep else [x]) ++ replaceChar c rep xs

/-- The escaping `createTextFrame` applies to the `content` parameter
before embedding it in a double-quoted ExtendScript literal
(src/index.js:1025): first every double quote becomes backslash-quote,
then every newline becomes backslash-n. Backslashes are left untouched. -/
def escapeContent (s : List Char) : List Char :=
  replaceChar '\n' ['\\', 'n'] (replaceChar '"' ['\\', '"'] s)

/-- Decoding of one escape sequence by the ExtendScript/JavaScript
string-literal rules: the named single-character escapes, any other
character standing for itself (NonEscapeCharacter), and the hex/unicode
escape introducers left unmodelled (`none`; no input in this development
produces them without a backslash already present in the source text). -/
def jsEscapeChar (c : Char) : Option Char :=
  if c = 'n' then some '\n'
  else if c = 't' then some '\t'
  else if c = 'r' then some '\r'
  else if c = 'b' then some (Char.ofNat 8)
  else if c = 'f' then some (Char.ofNat 12)
  else if c = 'v' then some (Char.ofNat 11)
  else if c = '0' then some (Char.ofNat 0)
  else if c = 'x' ∨ c = 'u' then none
  else some c

/-- What the foreign engine reads back from the body of a double-quoted
string literal: escape sequences decoded, a dangling backslash or a raw
line terminator or a raw unescaped quote making the literal ill-formed
(`none`). -/
def jsDecodeLiteralBody : List Char → Option (List Char)
  | [] => some []
  | ['\\'] => none
  | '\\' :: c :: rest =>
      match jsEscapeChar c, jsDecodeLiteralBody rest with
      | some d, some tail => some (d :: tail)
      | _, _ => none
  | c :: rest =>
      if c = '\n' ∨ c = '\r' ∨ c = '"' then none
      else (jsDecodeLiteralBody rest).map (fun tail => c :: tail)

/-! ## The claims -/

/-- Claim C1: for every invocation of `executeInDesignScript`, on every
exit path — the outer automation call returning normally or throwing
(spawn failure, non-zero exit, timeout) — the temporary script file
created for that invocation is deleted before control returns: after the
invocation the filesystem holds no file at the temporary path. -/
theorem c1_temp_file_deleted_on_all_paths (script : String)
    (outcome : ExecResult) (fs : FS) :
    fsLookup tempScriptPath
      (executeInDesignScriptTrace script outcome fs).fsAfter = none :=
  fsAfter_no_temp script outcome fs

/-- Claim C2 counterexample: two invocations with different payloads — so
different requests — write their payloads to the same temporary file path;
naming is not request-scoped. -/
theorem c2_counterexample_shared_temp_path :
    (executeInDesignScriptTrace "var a = 1;" (.ok "done") []).writtenPath =
      (executeInDesignScriptTrace "var b = 2;" (.ok "done") []).writtenPath ∧
    ("var a = 1;" : String) ≠ "var b = 2;" :=
  ⟨rfl, by decide⟩

/-- Claim C2 (amended): every request writes the guarded payload to the
same fixed temporary path — `temp_script.jsx` under the module directory —
rather than to a request-unique name. -/
theorem c2_amended_fixed_temp_path (script : String) (outcome : ExecResult)
    (fs : FS) :
    (executeInDesignScriptTrace script outcome fs).writtenPath =
      tempScriptPath :=
  rfl

/-- Claim C3 counterexample: raw transport text that begins with the
sentinel "ERROR: " IS returned to the caller as a Success outcome — the
dispatcher formats it into the ordinary text content block, with no
engine-error classification anywhere on the host side. -/
theorem c3_counterexample_sentinel_returned_as_success :
    ("ERROR: boom (Line: 3)").take 7 = "ERROR: " ∧
    (handleCallTool "delete_page" [("pageIndex", JsValue.num 0)]
        (.ok "ERROR: boom (Line: 3)") []).response =
      ToolResponse.success "Delete Page: ERROR: boom (Line: 3)" :=
  ⟨rfl, by decide⟩

/-- Claim C3 (amended): the host performs no classification of the
transport text: whatever text the outer call returns — sentinel-prefixed
or not — the caller receives a Success response whose text is the
operation label joined to the raw text, the raw text kept verbatim beyond
trimming surrounding whitespace. The sentinel string itself (message and
line, "unknown" when the engine reports none) is built inside the
engine-level guard, not parsed out on the host side. -/
theorem c3_amended_no_host_classification (s : String) :
    (handleCallTool "delete_page" [("pageIndex", JsValue.num 0)]
        (.ok s) []).response =
      ToolResponse.success (formatResponse (jsTrim s) "Delete Page") :=
  rfl

/-- Claim C4, behaviour at the failing input: `delete_page` declares
`pageIndex` required (src/index.js:119), yet a call with an empty
parameter mapping is not rejected — the transport is invoked once, the
temporary script file is created at the fixed path, and the payload is the
script template with `undefined` interpolated where the page index should
be. -/
theorem c4_missing_required_param_reaches_transport :
    (handleCallTool "delete_page" [] (.ok "done") []).transports.map
        (fun t => (t.writtenPath, t.writtenContents)) =
      [(tempScriptPath, wrapScript (deletePageScript "undefined"))] :=
  rfl

/-- Claim C5, behaviour at the failing input: for an unknown operation
name no temporary file is ever created and the filesystem is untouched,
but the `McpError(ErrorCode.MethodNotFound)` thrown by the default branch
(src/index.js:606) is caught by the catch-all (src/index.js:608-610) and
rewrapped: the caller receives `ErrorCode.InternalError` — a generic
internal error, not NotFound. -/
theorem c5_unknown_tool_rewrapped_as_internal_error :
    (handleCallTool "nonexistent_tool" [] (.ok "") []).transports = [] ∧
    (handleCallTool "nonexistent_tool" [] (.ok "") []).fsAfter = [] ∧
    (handleCallTool "nonexistent_tool" [] (.ok "") []).response =
      ToolResponse.mcpError ErrCode.internalError
        "Error executing tool nonexistent_tool: MCP error -32601: Unknown tool: nonexistent_tool" ∧
    ErrCode.internalError ≠ ErrCode.methodNotFound :=
  ⟨rfl, rfl, rfl, by decide⟩

/-- Claim C6, behaviour at the failing input: the renderer escapes double
quotes and newlines but never backslashes, so the two-character content
backslash-n passes through escaping unchanged and the foreign engine
decodes the embedded literal as a single newline — the round-trip fails;
on backslash-free content (quotes and embedded newlines included) the
round-trip does hold. -/
theorem c6_backslash_breaks_roundtrip :
    escapeContent ['\\', 'n'] = ['\\', 'n'] ∧
    jsDecodeLiteralBody (escapeContent ['\\', 'n']) = some ['\n'] ∧
    jsDecodeLiteralBody (escapeContent ['\\', 'n']) ≠ some ['\\', 'n'] ∧
    jsDecodeLiteralBody (escapeContent ['a', '"', '\n', 'b']) =
      some ['a', '"', '\n', 'b'] :=
  ⟨rfl, rfl, by decide, rfl⟩

/-- Claim C7: the outer automation call runs under the fixed 30000 ms
timeout, and every thrown condition of the transport step — spawn failure,
non-zero exit, or timeout, arriving as the captured diagnostic — surfaces
from `executeAppleScript` and from `executeInDesignScript` as the thrown
transport error carrying that diagnostic; it is never a returned text, so
it can never be taken for the sentinel-classified engine error. -/
theorem c7_fixed_timeout_and_transport_error (script diagnostic : String)
    (fs : FS) :
    osascriptTimeoutMs = 30000 ∧
    executeAppleScript (.err diagnostic) =
      .error ("AppleScript execution failed: " ++ diagnostic) ∧
    (executeInDesignScriptTrace script (.err diagnostic) fs).result =
      .error ("AppleScript execution failed: " ++ diagnostic) ∧
    ∀ t : String,
      (executeInDesignScriptTrace script (.err diagnostic) fs).result ≠
        Except.ok t :=
  ⟨rfl, rfl, rfl, fun _ h => Except.noConfusion h⟩

/-- Claim C8: the pass-through operation `execute_indesign_code` runs the
caller-supplied body through the very transport every catalog operation
uses: its one transport invocation is `executeInDesignScript` applied to
the raw body, the written payload is the body spliced unmodified into the
fixed engine-level guard, the call is bounded by the same fixed timeout,
the temporary file is deleted on every exit path, and the transport result
is handed back unchanged. -/
theorem c8_passthrough_same_pipeline (code : String) (outcome : ExecResult)
    (fs : FS) :
    (handleCallTool "execute_indesign_code" [("code", JsValue.str code)]
        outcome fs).transports =
      [executeInDesignScriptTrace code outcome fs] ∧
    (executeInDesignScriptTrace code outcome fs).writtenContents =
      guardOpen ++ code ++ guardClose ∧
    osascriptTimeoutMs = 30000 ∧
    fsLookup tempScriptPath
      (executeInDesignScriptTrace code outcome fs).fsAfter = none ∧
    (executeInDesignScriptTrace code outcome fs).result =
      executeAppleScript outcome := by
  cases outcome with
  | ok s => exact ⟨rfl, rfl, rfl, fsAfter_no_temp _ _ _, rfl⟩
  | err d => exact ⟨rfl, rfl, rfl, fsAfter_no_temp _ _ _, rfl⟩

/-- Claim C9: on a one-page document (some document open, exactly one
page), deleting page 0 — the index of the only remaining page — takes the
refusal branch: the script value is the fixed refusal text, the document
state is untouched (nothing is removed, so no engine exception arises on
this path), and the text is neither sentinel-prefixed nor the
invalid-index message. -/
theorem c9_last_page_refusal (st : InDesignState)
    (hdoc : st.numDocuments ≠ 0) (hpages : st.pages = 1) :
    deletePageScriptSem 0 st =
      ("Cannot delete the last page in the document.", st) ∧
    ("Cannot delete the last page in the document.").take 7 ≠ "ERROR: " ∧
    "Cannot delete the last page in the document." ≠
      "Invalid page index: 0. Document has 1 pages." := by
  refine ⟨?_, by decide, by decide⟩
  simp [deletePageScriptSem, hdoc, hpages]

/-- Witness for C9: the concrete state with one document of one page. -/
theorem c9_last_page_refusal_witness :
    deletePageScriptSem 0 (InDesignState.mk 1 1) =
      ("Cannot delete the last page in the document.", InDesignState.mk 1 1) ∧
    ("Cannot delete the last page in the document.").take 7 ≠ "ERROR: " ∧
    "Cannot delete the last page in the document." ≠
      "Invalid page index: 0. Document has 1 pages." :=
  c9_last_page_refusal (InDesignState.mk 1 1) (by decide) rfl

/-- Claim C10: "LAB" is a value the declared `colorModel` enum accepts,
yet on the non-error path of the rendered script it matches neither the
CMYK nor the RGB branch: no colour object is created (the colour list of
the document is unchanged), while the returned text is still the success
message naming the swatch and the LAB values. -/
theorem c10_lab_creates_nothing_reports_success (name : String)
    (vs : List Int) (sp : Bool) (st : ColorDocState)
    (hdoc : st.numDocuments ≠ 0) :
    "LAB" ∈ createColorSwatchColorModels ∧
    createColorSwatchScriptSem name "LAB" vs sp st =
      ("Color swatch \x27" ++ name ++ "\x27 created (LAB: " ++
        joinComma vs ++ ")", st) := by
  refine ⟨by decide, ?_⟩
  have h1 : createColorSwatchScriptSem name "LAB" vs sp st =
      ("Color swatch \x27" ++ name ++ "\x27 created (" ++ "LAB" ++ ": " ++
        joinComma vs ++ ")", st) := by
    simp [createColorSwatchScriptSem, hdoc]
  rw [h1]
  refine Prod.ext ?_ rfl
  apply String.ext
  simp

/-- Witness for C10: a concrete LAB request against a one-document state
already holding one colour. -/
theorem c10_lab_witness :
    "LAB" ∈ createColorSwatchColorModels ∧
    createColorSwatchScriptSem "Ruby" "LAB" [50, 20, -30] false
        (ColorDocState.mk 1 ["Black"]) =
      ("Color swatch \x27" ++ "Ruby" ++ "\x27 created (LAB: " ++
        joinComma [50, 20, -30] ++ ")", ColorDocState.mk 1 ["Black"]) :=
  c10_lab_creates_nothing_reports_success "Ruby" [50, 20, -30] false
    (ColorDocState.mk 1 ["Black"]) (by decide)

end InDesignMCP
